import Mathlib

/-!
Formal model of the task scheduling and state-coordination core of the
repository: the priority/dependency task scheduler of
`example/core/task_scheduler.py` and the robot state machine of
`example/core/state_manager.py`, as executable Lean definitions.

Modelling conventions:
* timestamps are abstract naturals;
* task payloads and raised exceptions are opaque naturals;
* the outcome of invoking an opaque task body or a registered state
  callback is an explicit input of the corresponding step function
  (the scheduler never inspects it beyond success/failure);
* the `queue.PriorityQueue` is a multiset of entries, represented as a
  list where `put` appends and `get` removes a least entry under the
  lexicographic order of Python tuples;
* the task registry `self.tasks` is an association list keyed by id,
  where insertion overwrites an existing binding.
-/

namespace MasterPi

/-- `TaskPriority` of task_scheduler.py: LOW=1, NORMAL=2, HIGH=3, URGENT=4. -/
inductive TaskPriority where
  | low
  | normal
  | high
  | urgent
deriving DecidableEq

/-- The `.value` of each `TaskPriority` member. -/
def TaskPriority.value : TaskPriority → Nat
  | .low => 1
  | .normal => 2
  | .high => 3
  | .urgent => 4

/-- `TaskStatus` of task_scheduler.py. -/
inductive TaskStatus where
  | pending
  | running
  | completed
  | failed
  | cancelled
deriving DecidableEq

/-- Outcome of invoking an opaque task body: returned data, or a raised
exception (both opaque). -/
inductive Outcome where
  | ok (data : Nat)
  | err (e : Nat)
deriving DecidableEq

/-- `TaskResult` of task_scheduler.py (`execution_time` as an abstract
natural duration). -/
structure TaskResult where
  success : Bool
  data : Option Nat
  error : Option Nat
  execution_time : Nat
deriving DecidableEq

/-- The `Task` dataclass of task_scheduler.py.  The opaque `func`, `args`
and `kwargs` are not carried: the outcome of calling them is supplied to
the execution step.  `future` records whether an execution handle has been
attached (`task.future` being non-None). -/
structure Task where
  id : String
  name : String
  priority : TaskPriority
  timeout : Option Nat
  retry_count : Nat
  max_retries : Nat
  dependencies : List String
  status : TaskStatus
  result : Option TaskResult
  future : Bool
  created_at : Nat
  started_at : Option Nat
  completed_at : Option Nat
deriving DecidableEq

/-- One entry of `self.task_queue`: the tuple
`(5 - task.priority.value, created_at, task.id)` pushed by `submit_task`,
the scheduler loop and the retry path. -/
structure QueueEntry where
  prio : Nat
  createdAt : Nat
  id : String
deriving DecidableEq

/-- Strict lexicographic order on queue entries, matching Python tuple
comparison of `(int, float, str)`. -/
def entryLt (a b : QueueEntry) : Bool :=
  decide (a.prio < b.prio) ||
    (decide (a.prio = b.prio) &&
      (decide (a.createdAt < b.createdAt) ||
        (decide (a.createdAt = b.createdAt) && decide (a.id < b.id))))

/-- Select a least entry among `e :: rest`, returning it together with the
remaining entries.  `PriorityQueue.get` always returns a minimal tuple. -/
def selectMin (e : QueueEntry) : List QueueEntry → QueueEntry × List QueueEntry
  | [] => (e, [])
  | x :: xs =>
    if entryLt x e then
      let p := selectMin x xs
      (p.1, e :: p.2)
    else
      let p := selectMin e xs
      (p.1, x :: p.2)

/-- Pop a minimal entry from the queue (`task_queue.get`), or `none` when
the queue is empty (`queue.Empty`). -/
def popMin : List QueueEntry → Option (QueueEntry × List QueueEntry)
  | [] => none
  | x :: xs => some (selectMin x xs)

/-- Lookup in the task registry `self.tasks` (`self.tasks.get(task_id)`). -/
def alistLookup (l : List (String × Task)) (k : String) : Option Task :=
  match l with
  | [] => none
  | (k2, v) :: rest => if k2 = k then some v else alistLookup rest k

/-- `self.tasks[task.id] = task`: overwrite the binding for `k` if present,
otherwise append it. -/
def alistInsert (l : List (String × Task)) (k : String) (v : Task) :
    List (String × Task) :=
  match l with
  | [] => [(k, v)]
  | (k2, v2) :: rest =>
    if k2 = k then (k2, v) :: rest else (k2, v2) :: alistInsert rest k v

/-- The mutable counters of `self.stats`. -/
structure Stats where
  total_tasks : Nat
  completed_tasks : Nat
  failed_tasks : Nat
  cancelled_tasks : Nat
deriving DecidableEq

/-- The mutable state of a `TaskScheduler`. -/
structure SchedState where
  tasks : List (String × Task)
  queue : List QueueEntry
  is_running : Bool
  stats : Stats
deriving DecidableEq

/-- The queue entry pushed for `task`:
`(5 - task.priority.value, task.created_at, task.id)`. -/
def mkQueueEntry (task : Task) : QueueEntry :=
  { prio := 5 - task.priority.value, createdAt := task.created_at, id := task.id }

/-- `TaskScheduler._check_dependencies`: every declared dependency id is
present in the registry. -/
def check_dependencies (tasks : List (String × Task)) (task : Task) : Bool :=
  task.dependencies.all (fun dep => (alistLookup tasks dep).isSome)

/-- `TaskScheduler._are_dependencies_completed`: every dependency id maps
to a registered task whose status is COMPLETED. -/
def are_dependencies_completed (tasks : List (String × Task)) (task : Task) :
    Bool :=
  task.dependencies.all (fun dep =>
    match alistLookup tasks dep with
    | none => false
    | some d => decide (d.status = TaskStatus.completed))

/-- The errors `submit_task` can raise. -/
inductive SubmitError where
  | schedulerNotRunning
  | dependencyNotSatisfied
deriving DecidableEq

/-- Result of `submit_task`: the returned task id, or the raised error. -/
inductive SubmitResult where
  | ok (taskId : String)
  | err (e : SubmitError)
deriving DecidableEq

/-- `TaskScheduler.submit_task`.  Raising leaves the scheduler state
untouched, so the state is returned alongside the result. -/
def submit_task (s : SchedState) (task : Task) : SchedState × SubmitResult :=
  if s.is_running = false then
    (s, SubmitResult.err SubmitError.schedulerNotRunning)
  else if check_dependencies s.tasks task = false then
    (s, SubmitResult.err SubmitError.dependencyNotSatisfied)
  else
    ({ s with
        tasks := alistInsert s.tasks task.id task,
        queue := s.queue ++ [mkQueueEntry task],
        stats := { s.stats with total_tasks := s.stats.total_tasks + 1 } },
      SubmitResult.ok task.id)

/-- `TaskScheduler.cancel_task`.  `futureCancel` is the outcome of
`task.future.cancel()` on the RUNNING branch (external to this core). -/
def cancel_task (s : SchedState) (taskId : String) (futureCancel : Bool) :
    SchedState × Bool :=
  match alistLookup s.tasks taskId with
  | none => (s, false)
  | some task =>
    if task.status = TaskStatus.running ∧ task.future = true then
      if futureCancel then
        ({ s with
            tasks := alistInsert s.tasks taskId
              { task with status := TaskStatus.cancelled },
            stats := { s.stats with
              cancelled_tasks := s.stats.cancelled_tasks + 1 } },
          true)
      else (s, false)
    else if task.status = TaskStatus.pending then
      ({ s with
          tasks := alistInsert s.tasks taskId
            { task with status := TaskStatus.cancelled },
          stats := { s.stats with
            cancelled_tasks := s.stats.cancelled_tasks + 1 } },
        true)
    else (s, false)

/-- One iteration of `TaskScheduler._scheduler_loop` after a successful
`task_queue.get`: discard the entry if the task is gone or no longer
PENDING; re-enqueue the same `(priority, created_at, id)` entry if some
dependency is not COMPLETED; otherwise mark the task RUNNING, stamp
`started_at := now`, attach a future and report the dispatched id. -/
def scheduler_step (s : SchedState) (now : Nat) : SchedState × Option String :=
  match popMin s.queue with
  | none => (s, none)
  | some (entry, rest) =>
    match alistLookup s.tasks entry.id with
    | none => ({ s with queue := rest }, none)
    | some task =>
      if task.status = TaskStatus.pending then
        if are_dependencies_completed s.tasks task then
          ({ s with
              queue := rest,
              tasks := alistInsert s.tasks entry.id
                { task with
                    status := TaskStatus.running,
                    started_at := some now,
                    future := true } },
            some entry.id)
        else
          ({ s with queue := rest ++ [entry] }, none)
      else ({ s with queue := rest }, none)

/-- Python truthiness of the `timeout` field (`if task.timeout:`):
`None` and `0` are falsy. -/
def timeout_truthy : Option Nat → Bool
  | none => false
  | some t => decide (t ≠ 0)

/-- The invocation of the task body in `_execute_task`: both branches of
`if task.timeout:` perform the identical call (the TODO leaves timeout
control unimplemented). -/
def invoke_with_timeout (timeout : Option Nat) (outcome : Outcome) : Outcome :=
  if timeout_truthy timeout then outcome else outcome

/-- `TaskScheduler._execute_task` restricted to the task object: returns
the updated task together with the retry queue entry pushed on the retry
path (`(5 - priority.value, time.time(), id)` with the fresh timestamp
`finishTime`), if any. -/
def execute_task (task : Task) (outcome : Outcome)
    (startTime finishTime : Nat) : Task × Option QueueEntry :=
  match invoke_with_timeout task.timeout outcome with
  | Outcome.ok data =>
    let result : TaskResult :=
      { success := true, data := some data, error := none,
        execution_time := finishTime - startTime }
    ({ task with
        status := TaskStatus.completed,
        result := some result,
        completed_at := some finishTime },
      none)
  | Outcome.err e =>
    let result : TaskResult :=
      { success := false, data := none, error := some e,
        execution_time := finishTime - startTime }
    if task.retry_count < task.max_retries then
      ({ task with
          status := TaskStatus.pending,
          retry_count := task.retry_count + 1,
          result := some result,
          completed_at := some finishTime },
        some { prio := 5 - task.priority.value, createdAt := finishTime,
               id := task.id })
    else
      ({ task with
          status := TaskStatus.failed,
          result := some result,
          completed_at := some finishTime },
        none)

/-- `_execute_task` lifted to the scheduler state.  The worker pool only
ever runs `_execute_task` on a task the loop has just marked RUNNING, so
the step is a no-op unless the task exists and is RUNNING. -/
def finish_task (s : SchedState) (taskId : String) (outcome : Outcome)
    (startTime finishTime : Nat) : SchedState :=
  match alistLookup s.tasks taskId with
  | none => s
  | some task =>
    if task.status = TaskStatus.running then
      let r := execute_task task outcome startTime finishTime
      let stats2 :=
        match invoke_with_timeout task.timeout outcome with
        | Outcome.ok _ =>
          { s.stats with completed_tasks := s.stats.completed_tasks + 1 }
        | Outcome.err _ =>
          { s.stats with failed_tasks := s.stats.failed_tasks + 1 }
      { s with
          tasks := alistInsert s.tasks taskId r.1,
          queue :=
            match r.2 with
            | some e => s.queue ++ [e]
            | none => s.queue,
          stats := stats2 }
    else s

/-- The scheduler operations that can touch a task's status after it is
in the registry. -/
inductive SysOp where
  | submitOp (t : Task)
  | cancelOp (taskId : String) (futureCancel : Bool)
  | stepOp (now : Nat)
  | finishOp (taskId : String) (outcome : Outcome) (startTime finishTime : Nat)
deriving DecidableEq

/-- Apply one scheduler operation to the state. -/
def applyOp (s : SchedState) (op : SysOp) : SchedState :=
  match op with
  | SysOp.submitOp t => (submit_task s t).1
  | SysOp.cancelOp taskId fc => (cancel_task s taskId fc).1
  | SysOp.stepOp now => (scheduler_step s now).1
  | SysOp.finishOp taskId oc st ft => finish_task s taskId oc st ft

/-- Run a sequence of scheduler operations. -/
def runOps (s : SchedState) (ops : List SysOp) : SchedState :=
  ops.foldl applyOp s

/-- Whether `op` submits a task under id `taskId` (registry overwrite). -/
def submits_id (op : SysOp) (taskId : String) : Bool :=
  match op with
  | SysOp.submitOp t => decide (t.id = taskId)
  | _ => false

/-- Whether applying `op` in state `s` invokes the body of task `taskId`:
only `_execute_task` calls `task.func`, and it only runs on a task the
loop dispatched (status RUNNING). -/
def opInvokes (s : SchedState) (op : SysOp) (taskId : String) : Bool :=
  match op with
  | SysOp.finishOp id2 _ _ _ =>
    decide (id2 = taskId) &&
      (match alistLookup s.tasks taskId with
       | some t => decide (t.status = TaskStatus.running)
       | none => false)
  | _ => false

/-- Whether some operation along the trace invokes the body of `taskId`. -/
def traceInvokes (s : SchedState) (ops : List SysOp) (taskId : String) : Bool :=
  match ops with
  | [] => false
  | op :: rest => opInvokes s op taskId || traceInvokes (applyOp s op) rest taskId

/-- The status of the registered task `taskId`, if any. -/
def task_status_of (s : SchedState) (taskId : String) : Option TaskStatus :=
  (alistLookup s.tasks taskId).map Task.status

/-- The sequence of values assigned to `tasks[taskId].status` while `op`
executes in state `s`, in program order (the retry path assigns FAILED and
then PENDING). -/
def statusAssignments (s : SchedState) (op : SysOp) (taskId : String) :
    List TaskStatus :=
  match op with
  | SysOp.submitOp _ => []
  | SysOp.cancelOp id2 fc =>
    if id2 = taskId then
      match alistLookup s.tasks taskId with
      | none => []
      | some task =>
        if task.status = TaskStatus.running ∧ task.future = true then
          if fc then [TaskStatus.cancelled] else []
        else if task.status = TaskStatus.pending then [TaskStatus.cancelled]
        else []
    else []
  | SysOp.stepOp _ =>
    match popMin s.queue with
    | none => []
    | some (entry, _) =>
      if entry.id = taskId then
        match alistLookup s.tasks taskId with
        | none => []
        | some task =>
          if task.status = TaskStatus.pending then
            if are_dependencies_completed s.tasks task then [TaskStatus.running]
            else []
          else []
      else []
  | SysOp.finishOp id2 oc _ _ =>
    if id2 = taskId then
      match alistLookup s.tasks taskId with
      | none => []
      | some task =>
        if task.status = TaskStatus.running then
          match invoke_with_timeout task.timeout oc with
          | Outcome.ok _ => [TaskStatus.completed]
          | Outcome.err _ =>
            if task.retry_count < task.max_retries then
              [TaskStatus.failed, TaskStatus.pending]
            else [TaskStatus.failed]
        else []
    else []

/-- The consecutive (old, new) pairs of a run of status values starting
at `a`. -/
def chainPairs (a : TaskStatus) : List TaskStatus → List (TaskStatus × TaskStatus)
  | [] => []
  | b :: rest => (a, b) :: chainPairs b rest

/-- The status edges claimed by the specification sentence under test:
PENDING→RUNNING, RUNNING→COMPLETED, RUNNING→FAILED, RUNNING→CANCELLED,
FAILED→PENDING. -/
def claimedEdges : List (TaskStatus × TaskStatus) :=
  [(TaskStatus.pending, TaskStatus.running),
   (TaskStatus.running, TaskStatus.completed),
   (TaskStatus.running, TaskStatus.failed),
   (TaskStatus.running, TaskStatus.cancelled),
   (TaskStatus.failed, TaskStatus.pending)]

/-- The status edges the code actually realises: the claimed ones plus
PENDING→CANCELLED (performed by `cancel_task` on a PENDING task and by
`_cancel_pending_tasks`). -/
def amendedEdges : List (TaskStatus × TaskStatus) :=
  (TaskStatus.pending, TaskStatus.cancelled) :: claimedEdges

/-- `RobotState` of state_manager.py (`initialization` models the
INITIALIZING member). -/
inductive RobotState where
  | idle
  | initialization
  | lineFollowing
  | objectPickup
  | dancing
  | stacking
  | trashSorting
  | emergencyStop
  | error
  | shutdown
deriving DecidableEq

/-- The static `valid_transitions` table of
`StateManager._is_valid_transition`. -/
def valid_transitions : RobotState → List RobotState
  | RobotState.idle =>
    [RobotState.initialization, RobotState.lineFollowing,
     RobotState.objectPickup, RobotState.dancing,
     RobotState.emergencyStop, RobotState.shutdown]
  | RobotState.initialization =>
    [RobotState.idle, RobotState.error, RobotState.emergencyStop]
  | RobotState.lineFollowing =>
    [RobotState.idle, RobotState.objectPickup, RobotState.dancing,
     RobotState.stacking, RobotState.trashSorting,
     RobotState.emergencyStop, RobotState.error]
  | RobotState.objectPickup =>
    [RobotState.idle, RobotState.lineFollowing, RobotState.stacking,
     RobotState.emergencyStop, RobotState.error]
  | RobotState.dancing =>
    [RobotState.idle, RobotState.lineFollowing,
     RobotState.emergencyStop, RobotState.error]
  | RobotState.stacking =>
    [RobotState.idle, RobotState.lineFollowing,
     RobotState.emergencyStop, RobotState.error]
  | RobotState.trashSorting =>
    [RobotState.idle, RobotState.lineFollowing,
     RobotState.emergencyStop, RobotState.error]
  | RobotState.emergencyStop =>
    [RobotState.idle, RobotState.shutdown, RobotState.error]
  | RobotState.error =>
    [RobotState.idle, RobotState.emergencyStop, RobotState.shutdown]
  | RobotState.shutdown => []

/-- `StateManager._is_valid_transition`. -/
def is_valid_transition (fromState toState : RobotState) : Bool :=
  (valid_transitions fromState).contains toState

/-- The observable fields of a `StateManager`.  The registered callbacks
are opaque; whether a callback is registered for a state and whether it
raises when invoked is supplied to `set_state` as the map `cb`
(`none` = no callback registered, `some true` = registered and raises,
`some false` = registered and returns normally). -/
structure StateManager where
  current_state : RobotState
  previous_state : Option RobotState
  is_transitioning : Bool
deriving DecidableEq

/-- `StateManager.set_state`: reject re-entrant transitions unless
forced; reject table-invalid transitions unless forced; otherwise set the
in-progress flag, record the previous state, swap in the new state and
invoke the callback registered for the new state.  If the callback raises,
only the current-state field is rolled back and failure is returned; the
in-progress flag is cleared on every exit path. -/
def set_state (m : StateManager) (cb : RobotState → Option Bool)
    (new_state : RobotState) (force : Bool) : StateManager × Bool :=
  if m.is_transitioning = true ∧ force = false then (m, false)
  else if is_valid_transition m.current_state new_state = false ∧ force = false
  then (m, false)
  else
    let old_state := m.current_state
    let m1 : StateManager :=
      { current_state := new_state,
        previous_state := some old_state,
        is_transitioning := true }
    match cb new_state with
    | some true =>
      ({ m1 with current_state := old_state, is_transitioning := false }, false)
    | _ =>
      ({ m1 with is_transitioning := false }, true)

/-! Concrete sample values used to exercise the definitions. -/

/-- A fresh state manager (`StateManager.__init__`): current IDLE, no
previous state, not transitioning. -/
def initialManager : StateManager :=
  { current_state := RobotState.idle,
    previous_state := none,
    is_transitioning := false }

/-- A manager sitting in SHUTDOWN after coming from IDLE. -/
def shutdownManager : StateManager :=
  { current_state := RobotState.shutdown,
    previous_state := some RobotState.idle,
    is_transitioning := false }

/-- Callback table with no callback registered for any state. -/
def cbNone : RobotState → Option Bool := fun _ => none

/-- Callback table where only the LINE_FOLLOWING callback is registered,
and it raises when invoked. -/
def cbLineRaises : RobotState → Option Bool := fun st =>
  if st = RobotState.lineFollowing then some true else none

/-- A sample task: id "a", NORMAL priority, no dependencies, no retries. -/
def taskA : Task :=
  { id := "a", name := "task a", priority := TaskPriority.normal,
    timeout := none, retry_count := 0, max_retries := 0,
    dependencies := [], status := TaskStatus.pending, result := none,
    future := false, created_at := 10, started_at := none,
    completed_at := none }

/-- A sample task: id "h", HIGH priority, no dependencies. -/
def taskH : Task :=
  { id := "h", name := "task h", priority := TaskPriority.high,
    timeout := none, retry_count := 0, max_retries := 0,
    dependencies := [], status := TaskStatus.pending, result := none,
    future := false, created_at := 11, started_at := none,
    completed_at := none }

/-- A sample task: id "b", HIGH priority, depends on task "a". -/
def taskB : Task :=
  { id := "b", name := "task b", priority := TaskPriority.high,
    timeout := none, retry_count := 0, max_retries := 2,
    dependencies := ["a"], status := TaskStatus.pending, result := none,
    future := false, created_at := 11, started_at := none,
    completed_at := none }

/-- A running scheduler that holds tasks "a" (PENDING) and "b" (PENDING,
depends on "a"), with "b" at the head of the queue. -/
def schedAB : SchedState :=
  { tasks := [("a", taskA), ("b", taskB)],
    queue := [mkQueueEntry taskB, mkQueueEntry taskA],
    is_running := true,
    stats := { total_tasks := 2, completed_tasks := 0, failed_tasks := 0,
               cancelled_tasks := 0 } }

/-- An empty, running scheduler. -/
def schedEmpty : SchedState :=
  { tasks := [], queue := [], is_running := true,
    stats := { total_tasks := 0, completed_tasks := 0, failed_tasks := 0,
               cancelled_tasks := 0 } }

/-- An empty, stopped scheduler. -/
def schedStopped : SchedState :=
  { tasks := [], queue := [], is_running := false,
    stats := { total_tasks := 0, completed_tasks := 0, failed_tasks := 0,
               cancelled_tasks := 0 } }

end MasterPi

namespace MasterPi

/-! ### Supporting lemmas -/

theorem alistLookup_insert_self (l : List (String × Task)) (k : String)
    (v : Task) : alistLookup (alistInsert l k v) k = some v := by
  induction l with
  | nil => simp [alistInsert, alistLookup]
  | cons hd tl ih =>
    obtain ⟨k2, v2⟩ := hd
    by_cases h : k2 = k
    · simp [alistInsert, alistLookup, h]
    · simp [alistInsert, alistLookup, h, ih]

theorem alistLookup_insert_ne (l : List (String × Task)) (k k2 : String)
    (v : Task) (h : k2 ≠ k) :
    alistLookup (alistInsert l k2 v) k = alistLookup l k := by
  induction l with
  | nil => simp [alistInsert, alistLookup, h]
  | cons hd tl ih =>
    obtain ⟨k3, v3⟩ := hd
    by_cases h3 : k3 = k2
    · subst h3
      simp [alistInsert, alistLookup, h]
    · simp [alistInsert, alistLookup, h3, ih]

theorem are_dependencies_completed_iff (tasks : List (String × Task))
    (task : Task) :
    are_dependencies_completed tasks task = true ↔
      ∀ dep ∈ task.dependencies, ∃ d, alistLookup tasks dep = some d ∧
        d.status = TaskStatus.completed := by
  unfold are_dependencies_completed
  rw [List.all_eq_true]
  constructor
  · intro h dep hdep
    have h2 := h dep hdep
    cases hl : alistLookup tasks dep with
    | none => rw [hl] at h2; simp at h2
    | some d =>
      rw [hl] at h2
      simp at h2
      exact ⟨d, rfl, h2⟩
  · intro h dep hdep
    obtain ⟨d, hl, hs⟩ := h dep hdep
    rw [hl]
    simpa using hs

theorem check_dependencies_false_iff (tasks : List (String × Task))
    (task : Task) :
    check_dependencies tasks task = false ↔
      ∃ dep ∈ task.dependencies, alistLookup tasks dep = none := by
  unfold check_dependencies
  rw [← Bool.not_eq_true, List.all_eq_true]
  constructor
  · intro h
    by_contra hc
    push_neg at hc
    apply h
    intro dep hdep
    cases hl : alistLookup tasks dep with
    | none => exact absurd hl (hc dep hdep)
    | some d => simp
  · rintro ⟨dep, hdep, hl⟩ h
    have := h dep hdep
    rw [hl] at this
    simp at this

theorem TaskPriority.value_le_four (p : TaskPriority) : p.value ≤ 4 := by
  cases p <;> simp [TaskPriority.value]

theorem TaskPriority.one_le_value (p : TaskPriority) : 1 ≤ p.value := by
  cases p <;> simp [TaskPriority.value]

/-! ### Claim theorems for the state manager -/

/-- C4: when the callback registered for the target state raises during
`set_state` (no transition already in progress, transition valid so the
callback is actually reached), the call returns failure, the current-state
field is rolled back to its pre-call value, and the transition-in-progress
flag is false after the call. -/
theorem c4_callback_failure_rolls_back (m : StateManager)
    (cb : RobotState → Option Bool) (new_state : RobotState)
    (htr : m.is_transitioning = false)
    (hv : is_valid_transition m.current_state new_state = true)
    (hcb : cb new_state = some true) :
    (set_state m cb new_state false).2 = false ∧
    (set_state m cb new_state false).1.current_state = m.current_state ∧
    (set_state m cb new_state false).1.is_transitioning = false := by
  simp [set_state, htr, hv, hcb]

/-- Witness for C4: the spec's concrete scenario — a raising callback on
LINE_FOLLOWING makes `set_state(idle → line_following)` fail with the
current state still IDLE. -/
theorem c4_witness :
    (set_state initialManager cbLineRaises RobotState.lineFollowing false).2
        = false ∧
    (set_state initialManager cbLineRaises RobotState.lineFollowing false).1.current_state
        = initialManager.current_state ∧
    (set_state initialManager cbLineRaises RobotState.lineFollowing false).1.is_transitioning
        = false :=
  c4_callback_failure_rolls_back initialManager cbLineRaises
    RobotState.lineFollowing rfl (by decide) rfl

/-- C10: after `set_state` fails because the target state's callback
raised, only the current-state field was rolled back: the previous-state
field keeps the value written during the attempt, so `previous_state` and
`current_state` both report the pre-transition state, and the value
`previous_state` held before the call is gone whenever it differed. -/
theorem c10_rollback_clobbers_previous_state (m : StateManager)
    (cb : RobotState → Option Bool) (new_state : RobotState)
    (htr : m.is_transitioning = false)
    (hv : is_valid_transition m.current_state new_state = true)
    (hcb : cb new_state = some true) :
    (set_state m cb new_state false).1.previous_state = some m.current_state ∧
    (set_state m cb new_state false).1.current_state = m.current_state ∧
    (m.previous_state ≠ some m.current_state →
      (set_state m cb new_state false).1.previous_state ≠ m.previous_state) := by
  refine ⟨?_, ?_, ?_⟩ <;> simp [set_state, htr, hv, hcb]
  intro h
  exact fun h2 => h h2.symm

/-- Witness for C10: in the IDLE manager whose previous state is `none`,
the failed transition to LINE_FOLLOWING leaves `previous_state` equal to
`some idle`, clobbering the old `none`. -/
theorem c10_witness :
    (set_state initialManager cbLineRaises RobotState.lineFollowing false).1.previous_state
        = some initialManager.current_state ∧
    (set_state initialManager cbLineRaises RobotState.lineFollowing false).1.current_state
        = initialManager.current_state ∧
    (initialManager.previous_state ≠ some initialManager.current_state →
      (set_state initialManager cbLineRaises RobotState.lineFollowing false).1.previous_state
        ≠ initialManager.previous_state) :=
  c10_rollback_clobbers_previous_state initialManager cbLineRaises
    RobotState.lineFollowing rfl (by decide) rfl

/-- C5: with `force = false`, (a) when no transition is in progress and
`(current, new)` is not an edge of the static table, `set_state` rejects
the call and leaves the manager unchanged; (b) from IDLE, `set_state` to
SHUTDOWN succeeds (provided the SHUTDOWN callback, if any, does not
raise); (c) from SHUTDOWN, every non-forced `set_state` returns false and
leaves the manager — in particular its current state — unchanged. -/
theorem c5_transition_table_enforced (m : StateManager)
    (cb : RobotState → Option Bool) (new_state : RobotState) :
    (m.is_transitioning = false →
      is_valid_transition m.current_state new_state = false →
      set_state m cb new_state false = (m, false)) ∧
    (m.is_transitioning = false → m.current_state = RobotState.idle →
      cb RobotState.shutdown ≠ some true →
      (set_state m cb RobotState.shutdown false).2 = true ∧
      (set_state m cb RobotState.shutdown false).1.current_state
        = RobotState.shutdown) ∧
    (m.current_state = RobotState.shutdown →
      set_state m cb new_state false = (m, false)) := by
  refine ⟨?_, ?_, ?_⟩
  · intro htr hv
    simp [set_state, htr, hv]
  · intro htr hcur hcb
    have hv : is_valid_transition m.current_state RobotState.shutdown = true := by
      rw [hcur]; decide
    cases hc : cb RobotState.shutdown with
    | none => simp [set_state, htr, hv, hc]
    | some b =>
      cases b with
      | true => exact absurd hc hcb
      | false => simp [set_state, htr, hv, hc]
  · intro hcur
    have hv : is_valid_transition m.current_state new_state = false := by
      rw [hcur]; cases new_state <;> decide
    by_cases htr : m.is_transitioning = true
    · simp [set_state, htr]
    · simp at htr
      simp [set_state, htr, hv]

/-- Witness for C5: from the fresh IDLE manager, a non-forced transition
to STACKING (not in the table) is rejected, the transition to SHUTDOWN
succeeds, and from the SHUTDOWN manager a non-forced transition back to
IDLE is rejected. -/
theorem c5_witness :
    set_state initialManager cbNone RobotState.stacking false
        = (initialManager, false) ∧
    (set_state initialManager cbNone RobotState.shutdown false).2 = true ∧
    set_state shutdownManager cbNone RobotState.idle false
        = (shutdownManager, false) :=
  ⟨(c5_transition_table_enforced initialManager cbNone RobotState.stacking).1
      rfl (by decide),
   ((c5_transition_table_enforced initialManager cbNone RobotState.stacking).2.1
      rfl rfl (by decide)).1,
   (c5_transition_table_enforced shutdownManager cbNone RobotState.idle).2.2
      rfl⟩

/-! ### Claim theorems for the task scheduler -/

/-- C9: the declared `timeout` field has no influence on execution: the
invocation of the task body is the plain call regardless of the timeout,
and for any two values of the field the execution step produces the same
task (up to the carried field itself) — same status, same recorded result
and error, same retry behaviour — and the same re-enqueue entry. -/
theorem c9_timeout_field_inert (task : Task) (to1 to2 : Option Nat)
    (oc : Outcome) (st ft : Nat) :
    invoke_with_timeout to1 oc = oc ∧
    (execute_task { task with timeout := to1 } oc st ft).1 =
      { (execute_task { task with timeout := to2 } oc st ft).1 with
          timeout := to1 } ∧
    (execute_task { task with timeout := to1 } oc st ft).2 =
      (execute_task { task with timeout := to2 } oc st ft).2 := by
  refine ⟨by simp [invoke_with_timeout], ?_, ?_⟩ <;>
  · cases oc with
    | ok d => simp [execute_task, invoke_with_timeout]
    | err e =>
      by_cases h : task.retry_count < task.max_retries <;>
        simp [execute_task, invoke_with_timeout, h]

/-- C6: `submit_task` fails exactly when the scheduler is not running or
some declared dependency id is absent from the registry; every failing
call leaves the whole scheduler state (registry, queue, counters)
unchanged, and a succeeding call stores the task, appends its queue entry,
bumps the total-submitted counter and returns the task's id. -/
theorem c6_submit_task_contract (s : SchedState) (t : Task) :
    ((∃ e, (submit_task s t).2 = SubmitResult.err e) ↔
      (s.is_running = false ∨
        ∃ dep ∈ t.dependencies, alistLookup s.tasks dep = none)) ∧
    (∀ e, (submit_task s t).2 = SubmitResult.err e → (submit_task s t).1 = s) ∧
    ((submit_task s t).2 = SubmitResult.ok t.id ∨
      ∃ e, (submit_task s t).2 = SubmitResult.err e) ∧
    ((submit_task s t).2 = SubmitResult.ok t.id →
      alistLookup (submit_task s t).1.tasks t.id = some t ∧
      (submit_task s t).1.queue = s.queue ++ [mkQueueEntry t] ∧
      (submit_task s t).1.stats.total_tasks = s.stats.total_tasks + 1) := by
  by_cases hr : s.is_running = false
  · refine ⟨?_, ?_, ?_, ?_⟩ <;> simp [submit_task, hr]
  · by_cases hd : check_dependencies s.tasks t = false
    · have hdep := (check_dependencies_false_iff s.tasks t).mp hd
      refine ⟨?_, ?_, ?_, ?_⟩ <;> simp [submit_task, hr, hd]
      exact hdep
    · have hdep : ¬ ∃ dep ∈ t.dependencies, alistLookup s.tasks dep = none :=
        fun hx => hd ((check_dependencies_false_iff s.tasks t).mpr hx)
      refine ⟨?_, ?_, ?_, ?_⟩ <;>
        simp [submit_task, hr, hd, alistLookup_insert_self]
      · intro dep hdep2 hnone
        exact hdep ⟨dep, hdep2, hnone⟩

/-- Witness for C6: submitting to the stopped scheduler fails and leaves
it unchanged; submitting the dependency-free task "a" to the empty running
scheduler succeeds, stores it and appends its queue entry. -/
theorem c6_witness :
    (∃ e, (submit_task schedStopped taskA).2 = SubmitResult.err e) ∧
    (submit_task schedStopped taskA).1 = schedStopped ∧
    (alistLookup (submit_task schedEmpty taskA).1.tasks taskA.id = some taskA ∧
      (submit_task schedEmpty taskA).1.queue =
        schedEmpty.queue ++ [mkQueueEntry taskA] ∧
      (submit_task schedEmpty taskA).1.stats.total_tasks =
        schedEmpty.stats.total_tasks + 1) :=
  ⟨(c6_submit_task_contract schedStopped taskA).1.mpr (Or.inl rfl),
   (c6_submit_task_contract schedStopped taskA).2.1
      SubmitError.schedulerNotRunning rfl,
   (c6_submit_task_contract schedEmpty taskA).2.2.2 rfl⟩

/-- C2: both accepted tasks are enqueued under the key
`(5 - priority.value, created_at, id)`, and on the resulting queue the
pop order follows the key: the strictly higher-priority task is popped
first regardless of timestamps, and within a priority tier the earlier
creation timestamp is popped first. -/
theorem c2_queue_pop_order (s : SchedState) (t1 t2 : Task)
    (hr : s.is_running = true) (hq : s.queue = [])
    (hd1 : t1.dependencies = []) (hd2 : t2.dependencies = []) :
    (submit_task (submit_task s t1).1 t2).1.queue =
      [mkQueueEntry t1, mkQueueEntry t2] ∧
    mkQueueEntry t1 = { prio := 5 - t1.priority.value,
                        createdAt := t1.created_at, id := t1.id } ∧
    (t2.priority.value < t1.priority.value →
      popMin [mkQueueEntry t1, mkQueueEntry t2] =
        some (mkQueueEntry t1, [mkQueueEntry t2])) ∧
    (t1.priority.value < t2.priority.value →
      popMin [mkQueueEntry t1, mkQueueEntry t2] =
        some (mkQueueEntry t2, [mkQueueEntry t1])) ∧
    (t1.priority = t2.priority → t1.created_at < t2.created_at →
      popMin [mkQueueEntry t1, mkQueueEntry t2] =
        some (mkQueueEntry t1, [mkQueueEntry t2])) ∧
    (t1.priority = t2.priority → t2.created_at < t1.created_at →
      popMin [mkQueueEntry t1, mkQueueEntry t2] =
        some (mkQueueEntry t2, [mkQueueEntry t1])) := by
  have hb1 := TaskPriority.value_le_four t1.priority
  have hb2 := TaskPriority.value_le_four t2.priority
  have ho1 := TaskPriority.one_le_value t1.priority
  have ho2 := TaskPriority.one_le_value t2.priority
  refine ⟨?_, rfl, ?_, ?_, ?_, ?_⟩
  · simp [submit_task, hr, hq, check_dependencies, hd1, hd2]
  · intro h
    have hlt : entryLt (mkQueueEntry t2) (mkQueueEntry t1) = false := by
      have h1 : ¬ (5 - t2.priority.value < 5 - t1.priority.value) := by omega
      have h2 : ¬ (5 - t2.priority.value = 5 - t1.priority.value) := by omega
      simp [entryLt, mkQueueEntry, h1, h2]
    simp [popMin, selectMin, hlt]
  · intro h
    have hlt : entryLt (mkQueueEntry t2) (mkQueueEntry t1) = true := by
      have h1 : 5 - t2.priority.value < 5 - t1.priority.value := by omega
      simp [entryLt, mkQueueEntry, h1]
    simp [popMin, selectMin, hlt]
  · intro hp h
    have hlt : entryLt (mkQueueEntry t2) (mkQueueEntry t1) = false := by
      have h1 : ¬ (5 - t2.priority.value < 5 - t1.priority.value) := by
        rw [hp]; omega
      have h2 : ¬ (t2.created_at < t1.created_at) := by omega
      have h3 : ¬ (t2.created_at = t1.created_at) := by omega
      simp [entryLt, mkQueueEntry, h1, h2, h3, hp]
    simp [popMin, selectMin, hlt]
  · intro hp h
    have hlt : entryLt (mkQueueEntry t2) (mkQueueEntry t1) = true := by
      simp [entryLt, mkQueueEntry, hp, h]
    simp [popMin, selectMin, hlt]

/-- Witness for C2: submitting the NORMAL task "a" and then the HIGH task
"h" to the empty running scheduler yields the two keyed entries, and the
HIGH one is popped first. -/
theorem c2_witness :
    (submit_task (submit_task schedEmpty taskA).1 taskH).1.queue =
      [mkQueueEntry taskA, mkQueueEntry taskH] ∧
    popMin [mkQueueEntry taskA, mkQueueEntry taskH] =
      some (mkQueueEntry taskH, [mkQueueEntry taskA]) :=
  ⟨(c2_queue_pop_order schedEmpty taskA taskH rfl rfl rfl rfl).1,
   (c2_queue_pop_order schedEmpty taskA taskH rfl rfl rfl rfl).2.2.2.1
      (by decide)⟩

/-- A task whose status is neither PENDING nor RUNNING keeps its status
across any single scheduler operation that does not overwrite its registry
entry with a fresh submission: `cancel_task` requires PENDING or RUNNING
to act, the dispatch loop requires PENDING, and `_execute_task` only runs
on a RUNNING task. -/
theorem status_preserved_step (s : SchedState) (op : SysOp) (taskId : String)
    (c : TaskStatus) (hc1 : c ≠ TaskStatus.pending)
    (hc2 : c ≠ TaskStatus.running)
    (h : task_status_of s taskId = some c)
    (hsub : submits_id op taskId = false) :
    task_status_of (applyOp s op) taskId = some c := by
  obtain ⟨tk, hlk, hst⟩ :
      ∃ tk, alistLookup s.tasks taskId = some tk ∧ tk.status = c := by
    unfold task_status_of at h
    cases hl : alistLookup s.tasks taskId with
    | none => rw [hl] at h; simp at h
    | some tk =>
      rw [hl] at h
      simp at h
      exact ⟨tk, rfl, h⟩
  have hnp : tk.status ≠ TaskStatus.pending := by rw [hst]; exact hc1
  have hnr : tk.status ≠ TaskStatus.running := by rw [hst]; exact hc2
  cases op with
  | submitOp t =>
    have hne : t.id ≠ taskId := by simpa [submits_id] using hsub
    simp only [applyOp, submit_task]
    by_cases h1 : s.is_running = false
    · simp [h1, task_status_of, hlk, hst]
    · by_cases h2 : check_dependencies s.tasks t = false
      · simp [h1, h2, task_status_of, hlk, hst]
      · simp [h1, h2, task_status_of, alistLookup_insert_ne _ _ _ _ hne,
          hlk, hst]
  | cancelOp id2 fc =>
    simp only [applyOp, cancel_task]
    by_cases hid : id2 = taskId
    · subst hid
      simp [hlk, task_status_of, hst, hc1, hc2]
    · cases hl2 : alistLookup s.tasks id2 with
      | none => simp [hl2, task_status_of, hlk, hst]
      | some tk2 =>
        by_cases g1 : tk2.status = TaskStatus.running ∧ tk2.future = true
        · by_cases hfc : fc <;>
            simp [hl2, g1, hfc, task_status_of,
              alistLookup_insert_ne _ _ _ _ hid, hlk, hst]
        · by_cases g2 : tk2.status = TaskStatus.pending <;>
            simp [hl2, g1, g2, task_status_of,
              alistLookup_insert_ne _ _ _ _ hid, hlk, hst]
  | stepOp now =>
    simp only [applyOp, scheduler_step]
    cases hpm : popMin s.queue with
    | none => simp [hpm, task_status_of, hlk, hst]
    | some pr =>
      obtain ⟨entry, rest⟩ := pr
      by_cases hid : entry.id = taskId
      · subst hid
        simp [hpm, hlk, task_status_of, hst, hc1]
      · cases hl2 : alistLookup s.tasks entry.id with
        | none => simp [hpm, hl2, task_status_of, hlk, hst]
        | some tk2 =>
          by_cases g1 : tk2.status = TaskStatus.pending
          · by_cases g2 : are_dependencies_completed s.tasks tk2 = true <;>
              simp [hpm, hl2, g1, g2, task_status_of,
                alistLookup_insert_ne _ _ _ _ hid, hlk, hst]
          · simp [hpm, hl2, g1, task_status_of, hlk, hst]
  | finishOp id2 oc st ft =>
    simp only [applyOp, finish_task]
    by_cases hid : id2 = taskId
    · subst hid
      simp [hlk, task_status_of, hst, hc2]
    · cases hl2 : alistLookup s.tasks id2 with
      | none => simp [hl2, task_status_of, hlk, hst]
      | some tk2 =>
        by_cases g1 : tk2.status = TaskStatus.running
        · simp [hl2, g1, task_status_of,
            alistLookup_insert_ne _ _ _ _ hid, hlk, hst]
        · simp [hl2, g1, task_status_of, hlk, hst]

/-- Along any trace of scheduler operations none of which re-submits
`taskId`, a task whose status is neither PENDING nor RUNNING keeps its
status forever and its body is never invoked. -/
theorem status_preserved_trace (c : TaskStatus)
    (hc1 : c ≠ TaskStatus.pending) (hc2 : c ≠ TaskStatus.running) :
    ∀ (ops : List SysOp) (s : SchedState) (taskId : String),
      task_status_of s taskId = some c →
      (∀ op ∈ ops, submits_id op taskId = false) →
      task_status_of (runOps s ops) taskId = some c ∧
        traceInvokes s ops taskId = false := by
  intro ops
  induction ops with
  | nil =>
    intro s taskId h _
    exact ⟨h, rfl⟩
  | cons op rest ih =>
    intro s taskId h hsub
    have hop : submits_id op taskId = false := hsub op (by simp)
    have hstep := status_preserved_step s op taskId c hc1 hc2 h hop
    have hrest := ih (applyOp s op) taskId hstep
      (fun o ho => hsub o (by simp [ho]))
    have hinv : opInvokes s op taskId = false := by
      cases op with
      | finishOp id2 oc st ft =>
        unfold opInvokes
        cases hl : alistLookup s.tasks taskId with
        | none => simp
        | some tk =>
          have : tk.status = c := by
            unfold task_status_of at h
            rw [hl] at h
            simpa using h
          simp [this, hc2]
      | submitOp t => rfl
      | cancelOp id2 fc => rfl
      | stepOp now => rfl
    refine ⟨hrest.1, ?_⟩
    unfold traceInvokes
    simp [hinv, hrest.2]


/-- C3: a failed execution attempt with `retry_count < max_retries`
increments `retry_count`, resets the status to PENDING and re-enqueues
the task with the same priority rank and the fresh timestamp of the
failure; a failed attempt with `retry_count = max_retries` leaves the task
FAILED with `retry_count` still equal to `max_retries` and enqueues
nothing, and a FAILED task is never revived by any later scheduler
operation that does not re-submit its id. -/
theorem c3_retry_policy (task : Task) (e startTime finishTime : Nat) :
    (task.retry_count < task.max_retries →
      (execute_task task (Outcome.err e) startTime finishTime).1.retry_count
          = task.retry_count + 1 ∧
      (execute_task task (Outcome.err e) startTime finishTime).1.status
          = TaskStatus.pending ∧
      (execute_task task (Outcome.err e) startTime finishTime).2 =
        some { prio := 5 - task.priority.value, createdAt := finishTime,
               id := task.id }) ∧
    (task.retry_count = task.max_retries →
      (execute_task task (Outcome.err e) startTime finishTime).1.status
          = TaskStatus.failed ∧
      (execute_task task (Outcome.err e) startTime finishTime).1.retry_count
          = task.max_retries ∧
      (execute_task task (Outcome.err e) startTime finishTime).2 = none) ∧
    (∀ (s : SchedState) (taskId : String) (ops : List SysOp),
      task_status_of s taskId = some TaskStatus.failed →
      (∀ op ∈ ops, submits_id op taskId = false) →
      task_status_of (runOps s ops) taskId = some TaskStatus.failed) := by
  refine ⟨?_, ?_, ?_⟩
  · intro h
    simp [execute_task, invoke_with_timeout, h]
  · intro h
    have h2 : ¬ task.retry_count < task.max_retries := by omega
    simp [execute_task, invoke_with_timeout, h, h2]
  · intro s taskId ops h hsub
    exact (status_preserved_trace TaskStatus.failed (by decide) (by decide)
      ops s taskId h hsub).1

/-- Witness for C3: task "b" (retry_count 0, max_retries 2) failing at
time 9 is reset to PENDING with retry_count 1 and re-enqueued at priority
rank 2 with timestamp 9. -/
theorem c3_witness :
    (execute_task taskB (Outcome.err 5) 3 9).1.retry_count = 1 ∧
    (execute_task taskB (Outcome.err 5) 3 9).1.status = TaskStatus.pending ∧
    (execute_task taskB (Outcome.err 5) 3 9).2 =
      some { prio := 5 - taskB.priority.value, createdAt := 9,
             id := taskB.id } :=
  (c3_retry_policy taskB 5 3 9).1 (by decide)

/-- C1: when the popped entry's task is PENDING with a non-empty
dependency list, the dispatch loop re-enqueues the entry under its
original `(priority, created_at)` key whenever some dependency is not
COMPLETED, and it dispatches (marking the task RUNNING) only when every
dependency id refers to a registered task whose status is COMPLETED. -/
theorem c1_dependencies_gate_dispatch (s : SchedState) (now : Nat)
    (entry : QueueEntry) (rest : List QueueEntry) (task : Task)
    (hpm : popMin s.queue = some (entry, rest))
    (hlk : alistLookup s.tasks entry.id = some task)
    (hp : task.status = TaskStatus.pending)
    (_hdep : task.dependencies ≠ []) :
    (are_dependencies_completed s.tasks task = false →
      scheduler_step s now = ({ s with queue := rest ++ [entry] }, none)) ∧
    (∀ tid, (scheduler_step s now).2 = some tid →
      tid = entry.id ∧
      are_dependencies_completed s.tasks task = true ∧
      (∀ dep ∈ task.dependencies, ∃ d, alistLookup s.tasks dep = some d ∧
        d.status = TaskStatus.completed) ∧
      task_status_of (scheduler_step s now).1 entry.id
        = some TaskStatus.running) := by
  constructor
  · intro h
    simp [scheduler_step, hpm, hlk, hp, h]
  · intro tid htid
    by_cases hd : are_dependencies_completed s.tasks task = true
    · have htid2 : tid = entry.id := by
        simp [scheduler_step, hpm, hlk, hp, hd] at htid
        exact htid.symm
      refine ⟨htid2, hd, (are_dependencies_completed_iff s.tasks task).mp hd, ?_⟩
      simp [scheduler_step, hpm, hlk, hp, hd, task_status_of,
        alistLookup_insert_self]
    · exfalso
      rw [Bool.not_eq_true] at hd
      simp [scheduler_step, hpm, hlk, hp, hd] at htid

/-- Witness for C1: in `schedAB` the head entry is task "b", whose
dependency "a" is merely PENDING, so the step re-enqueues "b" under its
original key and dispatches nothing. -/
theorem c1_witness :
    scheduler_step schedAB 12 =
      ({ schedAB with queue := [mkQueueEntry taskA, mkQueueEntry taskB] },
        none) :=
  (c1_dependencies_gate_dispatch schedAB 12 (mkQueueEntry taskB)
      [mkQueueEntry taskA] taskB (by decide) (by decide) rfl (by decide)).1
    (by decide)

/-- C7: `cancel_task` on a registered PENDING task returns true and marks
it CANCELLED; the dispatch loop discards any popped entry whose task is no
longer PENDING, and along every later trace of operations that does not
re-submit the id the task stays CANCELLED and its body is never invoked. -/
theorem c7_cancel_pending_never_runs (s : SchedState) (taskId : String)
    (task : Task) (fc : Bool)
    (hlk : alistLookup s.tasks taskId = some task)
    (hp : task.status = TaskStatus.pending) :
    (cancel_task s taskId fc).2 = true ∧
    task_status_of (cancel_task s taskId fc).1 taskId
      = some TaskStatus.cancelled ∧
    (∀ (s2 : SchedState) (now : Nat) (entry : QueueEntry)
        (rest : List QueueEntry) (tk : Task),
      popMin s2.queue = some (entry, rest) →
      alistLookup s2.tasks entry.id = some tk →
      tk.status ≠ TaskStatus.pending →
      scheduler_step s2 now = ({ s2 with queue := rest }, none)) ∧
    (∀ ops : List SysOp, (∀ op ∈ ops, submits_id op taskId = false) →
      task_status_of (runOps (cancel_task s taskId fc).1 ops) taskId
        = some TaskStatus.cancelled ∧
      traceInvokes (cancel_task s taskId fc).1 ops taskId = false) := by
  have hguard : ¬ (task.status = TaskStatus.running ∧ task.future = true) := by
    rw [hp]
    rintro ⟨h1, _⟩
    exact absurd h1 (by decide)
  have hstat : task_status_of (cancel_task s taskId fc).1 taskId
      = some TaskStatus.cancelled := by
    simp [cancel_task, hlk, hguard, hp, task_status_of,
      alistLookup_insert_self]
  refine ⟨?_, hstat, ?_, ?_⟩
  · simp [cancel_task, hlk, hguard, hp]
  · intro s2 now entry rest tk hpm hlk2 hnp
    simp [scheduler_step, hpm, hlk2, hnp]
  · intro ops hsub
    exact status_preserved_trace TaskStatus.cancelled (by decide) (by decide)
      ops _ taskId hstat hsub

/-- Witness for C7: cancelling the PENDING task "a" in `schedAB` succeeds,
marks it CANCELLED, and a subsequent dispatch step plus an attempted
worker completion neither revive it nor invoke its body. -/
theorem c7_witness :
    (cancel_task schedAB "a" false).2 = true ∧
    task_status_of (cancel_task schedAB "a" false).1 "a"
      = some TaskStatus.cancelled ∧
    (task_status_of
        (runOps (cancel_task schedAB "a" false).1
          [SysOp.stepOp 12, SysOp.finishOp "a" (Outcome.ok 0) 12 13]) "a"
        = some TaskStatus.cancelled ∧
      traceInvokes (cancel_task schedAB "a" false).1
        [SysOp.stepOp 12, SysOp.finishOp "a" (Outcome.ok 0) 12 13] "a"
        = false) :=
  ⟨(c7_cancel_pending_never_runs schedAB "a" taskA false (by decide) rfl).1,
   (c7_cancel_pending_never_runs schedAB "a" taskA false (by decide) rfl).2.1,
   (c7_cancel_pending_never_runs schedAB "a" taskA false (by decide) rfl).2.2.2
      [SysOp.stepOp 12, SysOp.finishOp "a" (Outcome.ok 0) 12 13]
      (by decide)⟩

/-- The status trace is sound: after any operation that does not
re-submit `taskId`, the registered status of `taskId` equals the last
assigned value of the trace (or the old status when the trace is empty). -/
theorem statusAssignments_last (s : SchedState) (op : SysOp)
    (taskId : String) (task : Task)
    (hlk : alistLookup s.tasks taskId = some task)
    (hsub : submits_id op taskId = false) :
    task_status_of (applyOp s op) taskId =
      some ((statusAssignments s op taskId).getLastD task.status) := by
  cases op with
  | submitOp t =>
    have hne : t.id ≠ taskId := by simpa [submits_id] using hsub
    simp only [applyOp, submit_task]
    by_cases h1 : s.is_running = false
    · simp [h1, statusAssignments, task_status_of, hlk]
    · by_cases h2 : check_dependencies s.tasks t = false
      · simp [h1, h2, statusAssignments, task_status_of, hlk]
      · simp [h1, h2, statusAssignments, task_status_of,
          alistLookup_insert_ne _ _ _ _ hne, hlk]
  | cancelOp id2 fc =>
    simp only [applyOp, cancel_task]
    by_cases hid : id2 = taskId
    · subst hid
      by_cases g1 : task.status = TaskStatus.running ∧ task.future = true
      · by_cases hfc : fc <;>
          simp [hlk, g1, hfc, statusAssignments, task_status_of,
            alistLookup_insert_self]
      · by_cases g2 : task.status = TaskStatus.pending <;>
          simp [hlk, g1, g2, statusAssignments, task_status_of,
            alistLookup_insert_self]
    · cases hl2 : alistLookup s.tasks id2 with
      | none => simp [hl2, hid, statusAssignments, task_status_of, hlk]
      | some tk2 =>
        by_cases g1 : tk2.status = TaskStatus.running ∧ tk2.future = true
        · by_cases hfc : fc <;>
            simp [hl2, g1, hfc, hid, statusAssignments, task_status_of,
              alistLookup_insert_ne _ _ _ _ hid, hlk]
        · by_cases g2 : tk2.status = TaskStatus.pending <;>
            simp [hl2, g1, g2, hid, statusAssignments, task_status_of,
              alistLookup_insert_ne _ _ _ _ hid, hlk]
  | stepOp now =>
    simp only [applyOp, scheduler_step]
    cases hpm : popMin s.queue with
    | none => simp [hpm, statusAssignments, task_status_of, hlk]
    | some pr =>
      obtain ⟨entry, rest⟩ := pr
      by_cases hid : entry.id = taskId
      · subst hid
        by_cases g1 : task.status = TaskStatus.pending
        · by_cases g2 : are_dependencies_completed s.tasks task = true <;>
            simp [hpm, hlk, g1, g2, statusAssignments, task_status_of,
              alistLookup_insert_self]
        · simp [hpm, hlk, g1, statusAssignments, task_status_of]
      · cases hl2 : alistLookup s.tasks entry.id with
        | none => simp [hpm, hl2, hid, statusAssignments, task_status_of, hlk]
        | some tk2 =>
          by_cases g1 : tk2.status = TaskStatus.pending
          · by_cases g2 : are_dependencies_completed s.tasks tk2 = true <;>
              simp [hpm, hl2, g1, g2, hid, statusAssignments, task_status_of,
                alistLookup_insert_ne _ _ _ _ hid, hlk]
          · simp [hpm, hl2, g1, hid, statusAssignments, task_status_of, hlk]
  | finishOp id2 oc st ft =>
    simp only [applyOp, finish_task]
    by_cases hid : id2 = taskId
    · subst hid
      by_cases g1 : task.status = TaskStatus.running
      · cases hoc : invoke_with_timeout task.timeout oc with
        | ok d =>
          simp [hlk, g1, hoc, statusAssignments, task_status_of,
            execute_task, alistLookup_insert_self]
        | err e =>
          by_cases hrt : task.retry_count < task.max_retries <;>
            simp [hlk, g1, hoc, hrt, statusAssignments, task_status_of,
              execute_task, alistLookup_insert_self]
      · simp [hlk, g1, statusAssignments, task_status_of]
    · cases hl2 : alistLookup s.tasks id2 with
      | none => simp [hl2, hid, statusAssignments, task_status_of, hlk]
      | some tk2 =>
        by_cases g1 : tk2.status = TaskStatus.running
        · simp [hl2, g1, hid, statusAssignments, task_status_of,
            alistLookup_insert_ne _ _ _ _ hid, hlk]
        · simp [hl2, g1, hid, statusAssignments, task_status_of, hlk]

/-- C8 counterexample: `cancel_task` on the PENDING task "a" performs the
status change PENDING→CANCELLED, which is not among the edges the claim
allows, so the claim as stated is false on the code. -/
theorem c8_counterexample :
    statusAssignments schedAB (SysOp.cancelOp "a" false) "a"
        = [TaskStatus.cancelled] ∧
    chainPairs TaskStatus.pending [TaskStatus.cancelled]
        = [(TaskStatus.pending, TaskStatus.cancelled)] ∧
    (TaskStatus.pending, TaskStatus.cancelled) ∉ claimedEdges ∧
    task_status_of schedAB "a" = some TaskStatus.pending ∧
    task_status_of (applyOp schedAB (SysOp.cancelOp "a" false)) "a"
        = some TaskStatus.cancelled := by
  decide

/-- C8 (amended): every status change any scheduler operation performs on
a registered task lies along the edges PENDING→RUNNING, PENDING→CANCELLED,
RUNNING→COMPLETED, RUNNING→FAILED, RUNNING→CANCELLED or FAILED→PENDING,
and the FAILED→PENDING change happens only when
`retry_count < max_retries`. -/
theorem c8_status_edges (s : SchedState) (op : SysOp) (taskId : String)
    (task : Task) (p : TaskStatus × TaskStatus)
    (hlk : alistLookup s.tasks taskId = some task)
    (hp : p ∈ chainPairs task.status (statusAssignments s op taskId)) :
    p ∈ amendedEdges ∧
    (p = (TaskStatus.failed, TaskStatus.pending) →
      task.retry_count < task.max_retries) := by
  cases op with
  | submitOp t =>
    simp [statusAssignments, chainPairs] at hp
  | cancelOp id2 fc =>
    by_cases hid : id2 = taskId
    · subst hid
      by_cases g1 : task.status = TaskStatus.running ∧ task.future = true
      · by_cases hfc : fc
        · simp [statusAssignments, hlk, g1, hfc, chainPairs] at hp
          rw [hp]
          exact ⟨by decide, fun h => absurd h (by decide)⟩
        · simp [statusAssignments, hlk, g1, hfc, chainPairs] at hp
      · by_cases g2 : task.status = TaskStatus.pending
        · simp [statusAssignments, hlk, g1, g2, chainPairs] at hp
          rw [hp]
          exact ⟨by decide, fun h => absurd h (by decide)⟩
        · simp [statusAssignments, hlk, g1, g2, chainPairs] at hp
    · simp [statusAssignments, hid, chainPairs] at hp
  | stepOp now =>
    cases hpm : popMin s.queue with
    | none => simp [statusAssignments, hpm, chainPairs] at hp
    | some pr =>
      obtain ⟨entry, rest⟩ := pr
      by_cases hid : entry.id = taskId
      · by_cases g1 : task.status = TaskStatus.pending
        · by_cases g2 : are_dependencies_completed s.tasks task = true
          · simp [statusAssignments, hpm, hid, hlk, g1, g2, chainPairs] at hp
            rw [hp]
            exact ⟨by decide, fun h => absurd h (by decide)⟩
          · simp [statusAssignments, hpm, hid, hlk, g1, g2, chainPairs] at hp
        · simp [statusAssignments, hpm, hid, hlk, g1, chainPairs] at hp
      · simp [statusAssignments, hpm, hid, chainPairs] at hp
  | finishOp id2 oc st ft =>
    by_cases hid : id2 = taskId
    · subst hid
      by_cases g1 : task.status = TaskStatus.running
      · cases hoc : invoke_with_timeout task.timeout oc with
        | ok d =>
          simp [statusAssignments, hlk, g1, hoc, chainPairs] at hp
          rw [hp]
          exact ⟨by decide, fun h => absurd h (by decide)⟩
        | err e =>
          by_cases hrt : task.retry_count < task.max_retries
          · simp [statusAssignments, hlk, g1, hoc, hrt, chainPairs] at hp
            rcases hp with hp | hp
            · rw [hp]
              exact ⟨by decide, fun h => absurd h (by decide)⟩
            · rw [hp]
              exact ⟨by decide, fun _ => hrt⟩
          · simp [statusAssignments, hlk, g1, hoc, hrt, chainPairs] at hp
            rw [hp]
            exact ⟨by decide, fun h => absurd h (by decide)⟩
      · simp [statusAssignments, hlk, g1, chainPairs] at hp
    · simp [statusAssignments, hid, chainPairs] at hp

/-- Witness for C8 (amended): the PENDING→CANCELLED change that
`cancel_task` performs on task "a" of `schedAB` lies along the amended
edge set. -/
theorem c8_witness :
    (TaskStatus.pending, TaskStatus.cancelled) ∈ amendedEdges ∧
    ((TaskStatus.pending, TaskStatus.cancelled)
        = (TaskStatus.failed, TaskStatus.pending) →
      taskA.retry_count < taskA.max_retries) :=
  c8_status_edges schedAB (SysOp.cancelOp "a" false) "a" taskA
    (TaskStatus.pending, TaskStatus.cancelled) (by decide) (by decide)


end MasterPi
